import Mathlib

/-!
Verification of the GLPI MCP tool server (`server.py`): a thin HTTP
pass-through client exposing CRUD operations against the GLPI REST API.

The embedding models each tool as a pure function of a "world"
`w : Request → HttpOutcome` describing how the remote endpoint answers the
single HTTP request the tool issues.  Each call returns a `CallResult`
recording the list of requests issued, the log lines emitted, and the
final result (decoded JSON or a raised error).
-/

namespace GLPI

/-- JSON values, modelling the Python dicts/lists/scalars exchanged with
the GLPI API. Objects are association lists, as Python dicts serialize. -/
inductive Json where
  | null : Json
  | bool : Bool → Json
  | num : Int → Json
  | str : String → Json
  | arr : List Json → Json
  | obj : List (String × Json) → Json

/-- HTTP methods used by the client. -/
inductive Method where
  | GET | POST | PUT | DELETE
deriving DecidableEq, Repr

/-- An outbound HTTP request as assembled by the source: method, full URL,
the header list passed to httpx, optional query parameters and optional
JSON body. -/
structure Request where
  method : Method
  url : String
  headers : List (String × String)
  params : Option (List (String × String))
  body : Option Json

/-- What the remote endpoint / transport does with one request:
either a response with a status code and a body that may or may not
decode as JSON (`resp.json()` can fail), or a transport-level failure
(DNS, connection refusal, timeout). -/
inductive HttpOutcome where
  | response : Nat → Except String Json → HttpOutcome
  | transportFailure : String → HttpOutcome

/-- The environment: how the network answers each request. -/
def World : Type := Request → HttpOutcome

/-- Errors raised by a call, modelling the httpx exceptions that escape
the `try` blocks of the source: `HTTPStatusError` from `raise_for_status`,
transport exceptions, and JSON decoding errors from `resp.json()`. -/
inductive GlpiError where
  | httpStatus : Nat → String → GlpiError
  | transport : String → GlpiError
  | jsonDecode : String → GlpiError
deriving DecidableEq, Repr

/-- The string form of the underlying httpx exception, as interpolated
into the log messages of the source.  The httpx `HTTPStatusError` message embeds the
request URL; transport and JSON-decoding exception messages are whatever
the library reports and need not mention the URL. -/
def GlpiError.message : GlpiError → String
  | .httpStatus status url => "HTTP status error " ++ toString status ++ " for url " ++ url
  | .transport msg => msg
  | .jsonDecode msg => msg

/-- Everything observable about one tool invocation: the requests issued
(in order), the log lines emitted, and the value returned or error
raised. -/
structure CallResult where
  requests : List Request
  logs : List String
  result : Except GlpiError Json

/-- Models `httpx.Response.raise_for_status`: it raises unless the status is a
success, i.e. in 2xx. -/
def is2xx (status : Nat) : Bool :=
  200 ≤ status && status < 300

/-- Models the Python expression `s.rstrip( '/' )`: remove every trailing slash. -/
def rstripSlash (s : String) : String :=
  String.mk ((s.toList.reverse.dropWhile (fun c => c = '/')).reverse)

/-- The `GLPIClient` state built by `__init__`: normalized base URL and
the fixed header list sent on every request. -/
structure GLPIClient where
  base_url : String
  headers : List (String × String)
deriving DecidableEq

/-- Models `GLPIClient.__init__(base_url, app_token, session_token)`:
strip trailing slashes from the base URL and fix the three headers. -/
def GLPIClient.init (base_url app_token session_token : String) : GLPIClient :=
  { base_url := rstripSlash base_url
    headers := [("App-Token", app_token),
                ("Session-Token", session_token),
                ("Content-Type", "application/json")] }

/-- Shared semantics of one request issued inside a `try` block of the
source: send the request, `raise_for_status`, decode JSON; on any
exception, log `"{label} failed: {e}"` once and re-raise.  `label` is
`"GET {url}"` etc. for the client verbs, `"init_session"` for the
session initiator. -/
def runRequest (w : World) (req : Request) (label : String) : CallResult :=
  match w req with
  | .response status jsonBody =>
      if is2xx status then
        match jsonBody with
        | .ok j => { requests := [req], logs := [], result := .ok j }
        | .error m =>
            let e := GlpiError.jsonDecode m
            { requests := [req]
              logs := [label ++ " failed: " ++ e.message]
              result := .error e }
      else
        let e := GlpiError.httpStatus status req.url
        { requests := [req]
          logs := [label ++ " failed: " ++ e.message]
          result := .error e }
  | .transportFailure m =>
      let e := GlpiError.transport m
      { requests := [req]
        logs := [label ++ " failed: " ++ e.message]
        result := .error e }

/-- Models `GLPIClient.get(path, params)`: GET at base_url ++ path with the
client headers and optional query parameters; on failure log
`"GET {url} failed: {e}"` and re-raise. -/
def GLPIClient.get (c : GLPIClient) (w : World) (path : String)
    (params : Option (List (String × String))) : CallResult :=
  let url := c.base_url ++ path
  runRequest w ⟨Method.GET, url, c.headers, params, none⟩ ("GET " ++ url)

/-- Models `GLPIClient.post(path, data)`: POST at base_url ++ path with the
client headers and JSON body `data`; on failure log
`"POST {url} failed: {e}"` and re-raise. -/
def GLPIClient.post (c : GLPIClient) (w : World) (path : String)
    (data : Json) : CallResult :=
  let url := c.base_url ++ path
  runRequest w ⟨Method.POST, url, c.headers, none, some data⟩ ("POST " ++ url)

/-- Models `GLPIClient.put(path, data)`: PUT at base_url ++ path with the
client headers and JSON body `data`; on failure log
`"PUT {url} failed: {e}"` and re-raise. -/
def GLPIClient.put (c : GLPIClient) (w : World) (path : String)
    (data : Json) : CallResult :=
  let url := c.base_url ++ path
  runRequest w ⟨Method.PUT, url, c.headers, none, some data⟩ ("PUT " ++ url)

/-- Models `GLPIClient.delete(path)`: DELETE at base_url ++ path with the
client headers and no body; on failure log
`"DELETE {url} failed: {e}"` and re-raise. -/
def GLPIClient.delete (c : GLPIClient) (w : World) (path : String) :
    CallResult :=
  let url := c.base_url ++ path
  runRequest w ⟨Method.DELETE, url, c.headers, none, none⟩ ("DELETE " ++ url)

/-- Tool `init_session(base_url, app_token, user_token)`: GET
the URL built from the slash-stripped base_url plus /apirest.php/initSession,
with headers App-Token,
`Authorization: user_token <user_token>` and Content-Type, no params, no
body; on failure log `"init_session failed: {e}"` and re-raise. -/
def init_session (w : World) (base_url app_token user_token : String) :
    CallResult :=
  let url := rstripSlash base_url ++ "/apirest.php/initSession"
  let headers := [("App-Token", app_token),
                  ("Authorization", "user_token " ++ user_token),
                  ("Content-Type", "application/json")]
  runRequest w ⟨Method.GET, url, headers, none, none⟩ "init_session"

/-- Tool `list_tickets`. -/
def list_tickets (w : World) (base_url app_token session_token : String) :
    CallResult :=
  let glpi := GLPIClient.init base_url app_token session_token
  glpi.get w "/apirest.php/Ticket" none

/-- Tool `get_ticket`: the ticket id (a Python `int`) is interpolated in
decimal into the path. -/
def get_ticket (w : World) (base_url app_token session_token : String)
    (ticket_id : Int) : CallResult :=
  let glpi := GLPIClient.init base_url app_token session_token
  glpi.get w ("/apirest.php/Ticket/" ++ toString ticket_id) none

/-- Tool `create_ticket`. -/
def create_ticket (w : World) (base_url app_token session_token : String)
    (name content : String) : CallResult :=
  let glpi := GLPIClient.init base_url app_token session_token
  let data := Json.obj [("input", Json.obj [("name", Json.str name),
                                            ("content", Json.str content)])]
  glpi.post w "/apirest.php/Ticket" data

/-- Tool `update_ticket`: the caller-supplied mapping `update_fields`
becomes the value of the `"input"` key, unmodified. -/
def update_ticket (w : World) (base_url app_token session_token : String)
    (ticket_id : Int) (update_fields : List (String × Json)) : CallResult :=
  let glpi := GLPIClient.init base_url app_token session_token
  let data := Json.obj [("input", Json.obj update_fields)]
  glpi.put w ("/apirest.php/Ticket/" ++ toString ticket_id) data

/-- Tool `delete_ticket`. -/
def delete_ticket (w : World) (base_url app_token session_token : String)
    (ticket_id : Int) : CallResult :=
  let glpi := GLPIClient.init base_url app_token session_token
  glpi.delete w ("/apirest.php/Ticket/" ++ toString ticket_id)

/-- Tool `get_users`. -/
def get_users (w : World) (base_url app_token session_token : String) :
    CallResult :=
  let glpi := GLPIClient.init base_url app_token session_token
  glpi.get w "/apirest.php/User" none

/-- Tool `get_computers`. -/
def get_computers (w : World) (base_url app_token session_token : String) :
    CallResult :=
  let glpi := GLPIClient.init base_url app_token session_token
  glpi.get w "/apirest.php/Computer" none

/-- Tool `get_groups`. -/
def get_groups (w : World) (base_url app_token session_token : String) :
    CallResult :=
  let glpi := GLPIClient.init base_url app_token session_token
  glpi.get w "/apirest.php/Group" none

/-- Tool `add_computer`. -/
def add_computer (w : World) (base_url app_token session_token : String)
    (name content : String) : CallResult :=
  let glpi := GLPIClient.init base_url app_token session_token
  let data := Json.obj [("input", Json.obj [("name", Json.str name),
                                            ("content", Json.str content)])]
  glpi.post w "/apirest.php/Computer" data

/-- The names registered with `@mcp.tool()`, in source order. -/
def registeredTools : List String :=
  ["init_session", "list_tickets", "get_ticket", "create_ticket",
   "update_ticket", "delete_ticket", "get_users", "get_computers",
   "get_groups", "add_computer"]

/-- The request `GLPIClient.get` assembles, read off the source. -/
def GLPIClient.getRequest (c : GLPIClient) (path : String)
    (params : Option (List (String × String))) : Request :=
  ⟨Method.GET, c.base_url ++ path, c.headers, params, none⟩

/-- The request `GLPIClient.post` assembles, read off the source. -/
def GLPIClient.postRequest (c : GLPIClient) (path : String) (data : Json) :
    Request :=
  ⟨Method.POST, c.base_url ++ path, c.headers, none, some data⟩

/-- The request `GLPIClient.put` assembles, read off the source. -/
def GLPIClient.putRequest (c : GLPIClient) (path : String) (data : Json) :
    Request :=
  ⟨Method.PUT, c.base_url ++ path, c.headers, none, some data⟩

/-- The request `GLPIClient.delete` assembles, read off the source. -/
def GLPIClient.deleteRequest (c : GLPIClient) (path : String) : Request :=
  ⟨Method.DELETE, c.base_url ++ path, c.headers, none, none⟩

/-- Written from the words of the spec: the header list every Resource
Client request must carry. -/
def specClientHeaders (app_token session_token : String) :
    List (String × String) :=
  [("App-Token", app_token),
   ("Session-Token", session_token),
   ("Content-Type", "application/json")]

/-- Written from the words of the spec: the single GET request
`init_session` must issue — URL with trailing slash stripped and suffix
`/apirest.php/initSession`, exactly three headers, no params, no body. -/
def specInitSessionRequest (base_url app_token user_token : String) :
    Request :=
  { method := Method.GET
    url := rstripSlash base_url ++ "/apirest.php/initSession"
    headers := [("App-Token", app_token),
                ("Authorization", "user_token " ++ user_token),
                ("Content-Type", "application/json")]
    params := none
    body := none }

/- Helper lemmas about the shared request/error semantics. -/

theorem runRequest_requests (w : World) (req : Request) (label : String) :
    (runRequest w req label).requests = [req] := by
  unfold runRequest
  cases w req with
  | response status jsonBody =>
    dsimp only
    split
    · cases jsonBody <;> rfl
    · rfl
  | transportFailure m => rfl

theorem runRequest_success (w : World) (req : Request) (label : String)
    (status : Nat) (j : Json) (h2 : is2xx status = true)
    (hw : w req = HttpOutcome.response status (Except.ok j)) :
    runRequest w req label = ⟨[req], [], Except.ok j⟩ := by
  unfold runRequest
  rw [hw]
  simp [h2]

theorem runRequest_status_error (w : World) (req : Request) (label : String)
    (status : Nat) (jsonBody : Except String Json) (h2 : is2xx status = false)
    (hw : w req = HttpOutcome.response status jsonBody) :
    runRequest w req label =
      ⟨[req],
       [label ++ " failed: " ++ (GlpiError.httpStatus status req.url).message],
       Except.error (GlpiError.httpStatus status req.url)⟩ := by
  unfold runRequest
  rw [hw]
  simp [h2]

theorem runRequest_transport_error (w : World) (req : Request)
    (label : String) (m : String)
    (hw : w req = HttpOutcome.transportFailure m) :
    runRequest w req label =
      ⟨[req], [label ++ " failed: " ++ m],
       Except.error (GlpiError.transport m)⟩ := by
  unfold runRequest
  rw [hw]
  rfl

theorem runRequest_error_of_401 (w : World) (req : Request) (label : String)
    (h : ∃ jb, w req = HttpOutcome.response 401 jb) :
    ∃ e, (runRequest w req label).result = Except.error e := by
  obtain ⟨jb, hw⟩ := h
  exact ⟨GlpiError.httpStatus 401 req.url,
    by rw [runRequest_status_error w req label 401 jb (by decide) hw]⟩

/- Helper lemmas about base URL normalization. -/

theorem toList_append (s t : String) :
    (s ++ t).toList = s.toList ++ t.toList := by
  cases s
  cases t
  rfl

theorem dropWhile_self_idem {α : Type} (p : α → Bool) (l : List α) :
    List.dropWhile p (List.dropWhile p l) = List.dropWhile p l := by
  induction l with
  | nil => rfl
  | cons a t ih =>
    by_cases h : p a = true
    · simp [List.dropWhile_cons, h, ih]
    · simp [List.dropWhile_cons, h]

theorem rstripSlash_append_slash (s : String) :
    rstripSlash (s ++ "/") = rstripSlash s := by
  unfold rstripSlash
  rw [toList_append]
  simp [List.dropWhile_cons]

theorem rstripSlash_idem (s : String) :
    rstripSlash (rstripSlash s) = rstripSlash s := by
  unfold rstripSlash
  simp [String.toList, dropWhile_self_idem]

theorem rstripSlash_all_slash (s : String)
    (h : ∀ c ∈ s.toList, c = '/') : rstripSlash s = "" := by
  unfold rstripSlash
  have hnil : List.dropWhile (fun c => c = '/') s.toList.reverse = [] := by
    rw [List.dropWhile_eq_nil_iff]
    intro x hx
    simp [h x (List.mem_reverse.mp hx)]
  rw [hnil]
  rfl

/-- C1: for every valid (base_url, app_token, user_token), `init_session`
issues exactly one GET to the slash-stripped base URL plus
`/apirest.php/initSession`, carrying exactly the headers App-Token,
`Authorization: user_token <user_token>` and Content-Type, with no body
and no query parameters, and returns the decoded JSON response unchanged
on any 2xx response. -/
theorem init_session_single_exact_request_and_passthrough
    (w : World) (base_url app_token user_token : String) :
    (init_session w base_url app_token user_token).requests =
      [specInitSessionRequest base_url app_token user_token] ∧
    (∀ status j, is2xx status = true →
      w (specInitSessionRequest base_url app_token user_token) =
        HttpOutcome.response status (Except.ok j) →
      (init_session w base_url app_token user_token).result =
        Except.ok j) := by
  refine ⟨runRequest_requests w _ _, ?_⟩
  intro status j h2 hw
  show (runRequest w (specInitSessionRequest base_url app_token user_token)
      "init_session").result = Except.ok j
  rw [runRequest_success w _ "init_session" status j h2 hw]

/-- Witness for C1 at a concrete successful world. -/
theorem init_session_passthrough_witness :
    (init_session
        (fun _ => HttpOutcome.response 200 (Except.ok (Json.str "sessiontok")))
        "http://glpi.local/" "app" "user").result =
      Except.ok (Json.str "sessiontok") :=
  (init_session_single_exact_request_and_passthrough
      (fun _ => HttpOutcome.response 200 (Except.ok (Json.str "sessiontok")))
      "http://glpi.local/" "app" "user").2 200 (Json.str "sessiontok")
      (by decide) rfl

/-- C2: every Resource Client verb, on a non-2xx status or a transport
failure, issues exactly one request (no retry), logs the verb, URL and
underlying error exactly once, and re-raises the error unchanged. -/
theorem client_failure_logged_once_and_reraised (c : GLPIClient) (w : World)
    (path : String) (params : Option (List (String × String)))
    (data : Json) :
    (∀ status jb, is2xx status = false →
      w (c.getRequest path params) = HttpOutcome.response status jb →
      c.get w path params =
        ⟨[c.getRequest path params],
         ["GET " ++ (c.base_url ++ path) ++ " failed: " ++
            (GlpiError.httpStatus status (c.base_url ++ path)).message],
         Except.error (GlpiError.httpStatus status (c.base_url ++ path))⟩) ∧
    (∀ m, w (c.getRequest path params) = HttpOutcome.transportFailure m →
      c.get w path params =
        ⟨[c.getRequest path params],
         ["GET " ++ (c.base_url ++ path) ++ " failed: " ++ m],
         Except.error (GlpiError.transport m)⟩) ∧
    (∀ status jb, is2xx status = false →
      w (c.postRequest path data) = HttpOutcome.response status jb →
      c.post w path data =
        ⟨[c.postRequest path data],
         ["POST " ++ (c.base_url ++ path) ++ " failed: " ++
            (GlpiError.httpStatus status (c.base_url ++ path)).message],
         Except.error (GlpiError.httpStatus status (c.base_url ++ path))⟩) ∧
    (∀ m, w (c.postRequest path data) = HttpOutcome.transportFailure m →
      c.post w path data =
        ⟨[c.postRequest path data],
         ["POST " ++ (c.base_url ++ path) ++ " failed: " ++ m],
         Except.error (GlpiError.transport m)⟩) ∧
    (∀ status jb, is2xx status = false →
      w (c.putRequest path data) = HttpOutcome.response status jb →
      c.put w path data =
        ⟨[c.putRequest path data],
         ["PUT " ++ (c.base_url ++ path) ++ " failed: " ++
            (GlpiError.httpStatus status (c.base_url ++ path)).message],
         Except.error (GlpiError.httpStatus status (c.base_url ++ path))⟩) ∧
    (∀ m, w (c.putRequest path data) = HttpOutcome.transportFailure m →
      c.put w path data =
        ⟨[c.putRequest path data],
         ["PUT " ++ (c.base_url ++ path) ++ " failed: " ++ m],
         Except.error (GlpiError.transport m)⟩) ∧
    (∀ status jb, is2xx status = false →
      w (c.deleteRequest path) = HttpOutcome.response status jb →
      c.delete w path =
        ⟨[c.deleteRequest path],
         ["DELETE " ++ (c.base_url ++ path) ++ " failed: " ++
            (GlpiError.httpStatus status (c.base_url ++ path)).message],
         Except.error (GlpiError.httpStatus status (c.base_url ++ path))⟩) ∧
    (∀ m, w (c.deleteRequest path) = HttpOutcome.transportFailure m →
      c.delete w path =
        ⟨[c.deleteRequest path],
         ["DELETE " ++ (c.base_url ++ path) ++ " failed: " ++ m],
         Except.error (GlpiError.transport m)⟩) := by
  refine ⟨?_, ?_, ?_, ?_, ?_, ?_, ?_, ?_⟩
  · intro status jb h2 hw
    exact runRequest_status_error w (c.getRequest path params)
      ("GET " ++ (c.base_url ++ path)) status jb h2 hw
  · intro m hw
    exact runRequest_transport_error w (c.getRequest path params)
      ("GET " ++ (c.base_url ++ path)) m hw
  · intro status jb h2 hw
    exact runRequest_status_error w (c.postRequest path data)
      ("POST " ++ (c.base_url ++ path)) status jb h2 hw
  · intro m hw
    exact runRequest_transport_error w (c.postRequest path data)
      ("POST " ++ (c.base_url ++ path)) m hw
  · intro status jb h2 hw
    exact runRequest_status_error w (c.putRequest path data)
      ("PUT " ++ (c.base_url ++ path)) status jb h2 hw
  · intro m hw
    exact runRequest_transport_error w (c.putRequest path data)
      ("PUT " ++ (c.base_url ++ path)) m hw
  · intro status jb h2 hw
    exact runRequest_status_error w (c.deleteRequest path)
      ("DELETE " ++ (c.base_url ++ path)) status jb h2 hw
  · intro m hw
    exact runRequest_transport_error w (c.deleteRequest path)
      ("DELETE " ++ (c.base_url ++ path)) m hw

/-- Witness for C2: a GET answered with 404 raises the status error. -/
theorem client_failure_witness :
    ((GLPIClient.init "http://glpi.local" "a" "s").get
        (fun _ => HttpOutcome.response 404 (Except.ok Json.null))
        "/apirest.php/Ticket" none).result =
      Except.error
        (GlpiError.httpStatus 404 "http://glpi.local/apirest.php/Ticket") := by
  have h := (client_failure_logged_once_and_reraised
      (GLPIClient.init "http://glpi.local" "a" "s")
      (fun _ => HttpOutcome.response 404 (Except.ok Json.null))
      "/apirest.php/Ticket" none Json.null).1 404 (Except.ok Json.null)
      (by decide) rfl
  rw [h]
  rfl

/-- C3: `create_ticket` issues exactly one POST to
`{base_url}/apirest.php/Ticket` whose JSON body is exactly
`{"input": {"name": name, "content": content}}`, and returns the decoded
JSON response unchanged on any 2xx response. -/
theorem create_ticket_request_and_passthrough (w : World)
    (base_url app_token session_token name content : String) :
    (create_ticket w base_url app_token session_token name content).requests
      = [⟨Method.POST, rstripSlash base_url ++ "/apirest.php/Ticket",
          specClientHeaders app_token session_token, none,
          some (Json.obj [("input",
            Json.obj [("name", Json.str name),
                      ("content", Json.str content)])])⟩] ∧
    (∀ status j, is2xx status = true →
      w ⟨Method.POST, rstripSlash base_url ++ "/apirest.php/Ticket",
         specClientHeaders app_token session_token, none,
         some (Json.obj [("input",
           Json.obj [("name", Json.str name),
                     ("content", Json.str content)])])⟩ =
        HttpOutcome.response status (Except.ok j) →
      (create_ticket w base_url app_token session_token name content).result
        = Except.ok j) := by
  refine ⟨runRequest_requests w _ _, ?_⟩
  intro status j h2 hw
  show (runRequest w
      ⟨Method.POST, rstripSlash base_url ++ "/apirest.php/Ticket",
       specClientHeaders app_token session_token, none,
       some (Json.obj [("input",
         Json.obj [("name", Json.str name),
                   ("content", Json.str content)])])⟩
      ("POST " ++ (rstripSlash base_url ++ "/apirest.php/Ticket"))).result
    = Except.ok j
  rw [runRequest_success w _ _ status j h2 hw]

/-- Witness for C3 at the concrete example of the spec. -/
theorem create_ticket_passthrough_witness :
    (create_ticket
        (fun _ => HttpOutcome.response 201 (Except.ok (Json.num 12)))
        "http://glpi.local" "app" "sess" "Printer broken" "Toner empty").result
      = Except.ok (Json.num 12) :=
  (create_ticket_request_and_passthrough
      (fun _ => HttpOutcome.response 201 (Except.ok (Json.num 12)))
      "http://glpi.local" "app" "sess" "Printer broken" "Toner empty").2
      201 (Json.num 12) (by decide) rfl

/-- C4: `update_ticket` issues exactly one PUT to
`{base_url}/apirest.php/Ticket/{ticket_id}` whose JSON body is exactly
`{"input": update_fields}` with the caller-supplied fields unmodified;
in particular ticket 42 with fields `{"status": 5}` yields the URL suffix
`/apirest.php/Ticket/42` and body `{"input": {"status": 5}}`. -/
theorem update_ticket_request_and_body_passthrough (w : World)
    (base_url app_token session_token : String) (ticket_id : Int)
    (update_fields : List (String × Json)) :
    (update_ticket w base_url app_token session_token ticket_id
        update_fields).requests
      = [⟨Method.PUT,
          rstripSlash base_url ++ ("/apirest.php/Ticket/" ++ toString ticket_id),
          specClientHeaders app_token session_token, none,
          some (Json.obj [("input", Json.obj update_fields)])⟩] ∧
    (update_ticket w base_url app_token session_token 42
        [("status", Json.num 5)]).requests
      = [⟨Method.PUT, rstripSlash base_url ++ "/apirest.php/Ticket/42",
          specClientHeaders app_token session_token, none,
          some (Json.obj [("input",
            Json.obj [("status", Json.num 5)])])⟩] := by
  have h42 : ("/apirest.php/Ticket/" ++ toString (42 : Int))
      = "/apirest.php/Ticket/42" := by decide
  refine ⟨runRequest_requests w _ _, ?_⟩
  rw [← h42]
  exact runRequest_requests w _ _

/-- C5: supplying a base URL with a trailing slash produces exactly the
same client state and the same requests as supplying it without, for
`init_session` and for every Resource Client verb. -/
theorem trailing_slash_insensitive (w : World)
    (base_url app_token session_token user_token path : String)
    (params : Option (List (String × String))) (data : Json) :
    GLPIClient.init (base_url ++ "/") app_token session_token
      = GLPIClient.init base_url app_token session_token ∧
    init_session w (base_url ++ "/") app_token user_token
      = init_session w base_url app_token user_token ∧
    (GLPIClient.init (base_url ++ "/") app_token session_token).get w path
        params
      = (GLPIClient.init base_url app_token session_token).get w path
        params ∧
    (GLPIClient.init (base_url ++ "/") app_token session_token).post w path
        data
      = (GLPIClient.init base_url app_token session_token).post w path
        data ∧
    (GLPIClient.init (base_url ++ "/") app_token session_token).put w path
        data
      = (GLPIClient.init base_url app_token session_token).put w path
        data ∧
    (GLPIClient.init (base_url ++ "/") app_token session_token).delete w
        path
      = (GLPIClient.init base_url app_token session_token).delete w path
      := by
  have hc : GLPIClient.init (base_url ++ "/") app_token session_token
      = GLPIClient.init base_url app_token session_token := by
    unfold GLPIClient.init
    rw [rstripSlash_append_slash]
  have hs : init_session w (base_url ++ "/") app_token user_token
      = init_session w base_url app_token user_token := by
    unfold init_session
    rw [rstripSlash_append_slash]
  exact ⟨hc, hs, by rw [hc], by rw [hc], by rw [hc], by rw [hc]⟩

/-- C6: against an endpoint answering every request with HTTP 401, every
tool operation raises an error; none returns a normal value. -/
theorem http_401_always_raises (w : World)
    (h401 : ∀ r : Request, ∃ jb, w r = HttpOutcome.response 401 jb)
    (base_url app_token session_token user_token name content : String)
    (ticket_id : Int) (update_fields : List (String × Json)) :
    (∃ e, (init_session w base_url app_token user_token).result
      = Except.error e) ∧
    (∃ e, (list_tickets w base_url app_token session_token).result
      = Except.error e) ∧
    (∃ e, (get_ticket w base_url app_token session_token ticket_id).result
      = Except.error e) ∧
    (∃ e, (create_ticket w base_url app_token session_token name
      content).result = Except.error e) ∧
    (∃ e, (update_ticket w base_url app_token session_token ticket_id
      update_fields).result = Except.error e) ∧
    (∃ e, (delete_ticket w base_url app_token session_token
      ticket_id).result = Except.error e) ∧
    (∃ e, (get_users w base_url app_token session_token).result
      = Except.error e) ∧
    (∃ e, (get_computers w base_url app_token session_token).result
      = Except.error e) ∧
    (∃ e, (get_groups w base_url app_token session_token).result
      = Except.error e) ∧
    (∃ e, (add_computer w base_url app_token session_token name
      content).result = Except.error e) := by
  refine ⟨?_, ?_, ?_, ?_, ?_, ?_, ?_, ?_, ?_, ?_⟩ <;>
    exact runRequest_error_of_401 w _ _ (h401 _)

/-- Witness for C6: a constant-401 world makes `list_tickets` fail. -/
theorem http_401_always_raises_witness :
    ∃ e, (list_tickets
        (fun _ => HttpOutcome.response 401 (Except.ok Json.null))
        "http://glpi.local" "a" "s").result = Except.error e :=
  (http_401_always_raises
      (fun _ => HttpOutcome.response 401 (Except.ok Json.null))
      (fun _ => ⟨Except.ok Json.null, rfl⟩)
      "http://glpi.local" "a" "s" "u" "n" "c" 1 []).2.1

/-- Counterexample to C7: on a transport failure whose message is
"Connection timed out", `init_session` logs exactly the line
"init_session failed: Connection timed out", and the failing URL
is not contained in that line. -/
theorem init_session_log_omits_url :
    (init_session (fun _ => HttpOutcome.transportFailure "Connection timed out")
        "http://glpi.local" "app" "tok").logs
      = ["init_session failed: Connection timed out"] ∧
    decide (List.IsInfix "http://glpi.local/apirest.php/initSession".toList
        "init_session failed: Connection timed out".toList) = false := by
  exact ⟨rfl, by decide⟩

/-- C7 as amended: whenever `init_session` fails, it has issued exactly
one request, logs exactly one line "init_session failed: <error>" — which
contains the URL only insofar as the underlying error message does — and
re-raises the original error unchanged, with no retry and no fallback. -/
theorem init_session_failure_logged_and_reraised (w : World)
    (base_url app_token user_token : String) :
    (∀ status jb, is2xx status = false →
      w (specInitSessionRequest base_url app_token user_token)
        = HttpOutcome.response status jb →
      init_session w base_url app_token user_token =
        ⟨[specInitSessionRequest base_url app_token user_token],
         ["init_session failed: " ++
            (GlpiError.httpStatus status
              (rstripSlash base_url ++ "/apirest.php/initSession")).message],
         Except.error (GlpiError.httpStatus status
           (rstripSlash base_url ++ "/apirest.php/initSession"))⟩) ∧
    (∀ m, w (specInitSessionRequest base_url app_token user_token)
        = HttpOutcome.transportFailure m →
      init_session w base_url app_token user_token =
        ⟨[specInitSessionRequest base_url app_token user_token],
         ["init_session failed: " ++ m],
         Except.error (GlpiError.transport m)⟩) := by
  constructor
  · intro status jb h2 hw
    exact runRequest_status_error w
      (specInitSessionRequest base_url app_token user_token)
      "init_session" status jb h2 hw
  · intro m hw
    exact runRequest_transport_error w
      (specInitSessionRequest base_url app_token user_token)
      "init_session" m hw

/-- Witness for the amended C7 at a concrete 500 response. -/
theorem init_session_failure_witness :
    (init_session (fun _ => HttpOutcome.response 500 (Except.ok Json.null))
        "http://glpi.local" "app" "tok").result =
      Except.error (GlpiError.httpStatus 500
        "http://glpi.local/apirest.php/initSession") := by
  have h := (init_session_failure_logged_and_reraised
      (fun _ => HttpOutcome.response 500 (Except.ok Json.null))
      "http://glpi.local" "app" "tok").1 500 (Except.ok Json.null)
      (by decide) rfl
  rw [h]
  rfl

/-- Counterexample to C8: the source registers ten tools, not eleven. -/
theorem registered_tools_not_eleven :
    registeredTools.length = 10 ∧ (registeredTools.length == 11) = false := by
  exact ⟨rfl, by decide⟩

/-- C8 as amended: the tool surface consists of ten named operations;
each issues exactly one HTTP request per invocation, and the nine
resource operations are direct single-call mappings onto the Resource
Client (one verb against one fixed path, optionally parameterized by an
identifier), while `init_session` issues its single GET directly. -/
theorem tool_surface_ten_direct_operations (w : World)
    (base_url app_token session_token user_token name content : String)
    (ticket_id : Int) (update_fields : List (String × Json)) :
    registeredTools.length = 10 ∧
    (init_session w base_url app_token user_token).requests.length = 1 ∧
    (list_tickets w base_url app_token session_token
      = (GLPIClient.init base_url app_token session_token).get w
          "/apirest.php/Ticket" none ∧
     (list_tickets w base_url app_token session_token).requests.length
       = 1) ∧
    (get_ticket w base_url app_token session_token ticket_id
      = (GLPIClient.init base_url app_token session_token).get w
          ("/apirest.php/Ticket/" ++ toString ticket_id) none ∧
     (get_ticket w base_url app_token session_token
        ticket_id).requests.length = 1) ∧
    (create_ticket w base_url app_token session_token name content
      = (GLPIClient.init base_url app_token session_token).post w
          "/apirest.php/Ticket"
          (Json.obj [("input", Json.obj [("name", Json.str name),
                                         ("content", Json.str content)])]) ∧
     (create_ticket w base_url app_token session_token name
        content).requests.length = 1) ∧
    (update_ticket w base_url app_token session_token ticket_id
        update_fields
      = (GLPIClient.init base_url app_token session_token).put w
          ("/apirest.php/Ticket/" ++ toString ticket_id)
          (Json.obj [("input", Json.obj update_fields)]) ∧
     (update_ticket w base_url app_token session_token ticket_id
        update_fields).requests.length = 1) ∧
    (delete_ticket w base_url app_token session_token ticket_id
      = (GLPIClient.init base_url app_token session_token).delete w
          ("/apirest.php/Ticket/" ++ toString ticket_id) ∧
     (delete_ticket w base_url app_token session_token
        ticket_id).requests.length = 1) ∧
    (get_users w base_url app_token session_token
      = (GLPIClient.init base_url app_token session_token).get w
          "/apirest.php/User" none ∧
     (get_users w base_url app_token session_token).requests.length = 1) ∧
    (get_computers w base_url app_token session_token
      = (GLPIClient.init base_url app_token session_token).get w
          "/apirest.php/Computer" none ∧
     (get_computers w base_url app_token
        session_token).requests.length = 1) ∧
    (get_groups w base_url app_token session_token
      = (GLPIClient.init base_url app_token session_token).get w
          "/apirest.php/Group" none ∧
     (get_groups w base_url app_token session_token).requests.length
       = 1) ∧
    (add_computer w base_url app_token session_token name content
      = (GLPIClient.init base_url app_token session_token).post w
          "/apirest.php/Computer"
          (Json.obj [("input", Json.obj [("name", Json.str name),
                                         ("content", Json.str content)])]) ∧
     (add_computer w base_url app_token session_token name
        content).requests.length = 1) := by
  refine ⟨rfl, ?_, ⟨rfl, ?_⟩, ⟨rfl, ?_⟩, ⟨rfl, ?_⟩, ⟨rfl, ?_⟩, ⟨rfl, ?_⟩,
    ⟨rfl, ?_⟩, ⟨rfl, ?_⟩, ⟨rfl, ?_⟩, ⟨rfl, ?_⟩⟩ <;>
    exact (congrArg List.length (runRequest_requests w _ _)).trans rfl

/-- C9: base URL normalization strips every trailing slash, not just
one, and is idempotent: appending "//" and pre-normalizing both yield
the same client, `init_session` applies the same normalization, and a
base URL consisting only of slashes normalizes to the empty string. -/
theorem base_url_normalization_complete (w : World)
    (base_url app_token session_token user_token : String) :
    GLPIClient.init (base_url ++ "//") app_token session_token
      = GLPIClient.init base_url app_token session_token ∧
    GLPIClient.init (rstripSlash base_url) app_token session_token
      = GLPIClient.init base_url app_token session_token ∧
    init_session w (base_url ++ "//") app_token user_token
      = init_session w base_url app_token user_token ∧
    init_session w (rstripSlash base_url) app_token user_token
      = init_session w base_url app_token user_token ∧
    (∀ s : String, (∀ c ∈ s.toList, c = '/') → rstripSlash s = "") := by
  have hss : rstripSlash (base_url ++ "//") = rstripSlash base_url := by
    unfold rstripSlash
    rw [toList_append]
    simp [List.dropWhile_cons]
  have hid : rstripSlash (rstripSlash base_url) = rstripSlash base_url :=
    rstripSlash_idem base_url
  refine ⟨?_, ?_, ?_, ?_, rstripSlash_all_slash⟩
  · unfold GLPIClient.init
    rw [hss]
  · unfold GLPIClient.init
    rw [hid]
  · unfold init_session
    rw [hss]
  · unfold init_session
    rw [hid]

/-- Witness for C9: a slash-only base URL normalizes to "". -/
theorem base_url_normalization_witness :
    GLPIClient.init ("http://glpi.local" ++ "//") "a" "s"
      = GLPIClient.init "http://glpi.local" "a" "s" ∧
    rstripSlash "///" = "" := by
  have h := base_url_normalization_complete
    (fun _ => HttpOutcome.transportFailure "down")
    "http://glpi.local" "a" "s" "u"
  exact ⟨h.1, h.2.2.2.2 "///" (by decide)⟩

/-- C10: `get_ticket`, `update_ticket` and `delete_ticket` accept every
integer ticket id without validation and interpolate its decimal
representation into the path; ticket id -1 targets the Ticket path with
suffix "-1" and ticket id 0 targets it with suffix "0", with no local
error. -/
theorem ticket_id_interpolated_unvalidated (w : World)
    (base_url app_token session_token : String) (ticket_id : Int)
    (update_fields : List (String × Json)) :
    (get_ticket w base_url app_token session_token ticket_id).requests
      = [⟨Method.GET,
          rstripSlash base_url ++
            ("/apirest.php/Ticket/" ++ toString ticket_id),
          specClientHeaders app_token session_token, none, none⟩] ∧
    (update_ticket w base_url app_token session_token ticket_id
        update_fields).requests
      = [⟨Method.PUT,
          rstripSlash base_url ++
            ("/apirest.php/Ticket/" ++ toString ticket_id),
          specClientHeaders app_token session_token, none,
          some (Json.obj [("input", Json.obj update_fields)])⟩] ∧
    (delete_ticket w base_url app_token session_token ticket_id).requests
      = [⟨Method.DELETE,
          rstripSlash base_url ++
            ("/apirest.php/Ticket/" ++ toString ticket_id),
          specClientHeaders app_token session_token, none, none⟩] ∧
    (get_ticket w base_url app_token session_token (-1)).requests
      = [⟨Method.GET, rstripSlash base_url ++ "/apirest.php/Ticket/-1",
          specClientHeaders app_token session_token, none, none⟩] ∧
    (get_ticket w base_url app_token session_token 0).requests
      = [⟨Method.GET, rstripSlash base_url ++ "/apirest.php/Ticket/0",
          specClientHeaders app_token session_token, none, none⟩] := by
  have hneg : ("/apirest.php/Ticket/" ++ toString (-1 : Int))
      = "/apirest.php/Ticket/-1" := by decide
  have hzero : ("/apirest.php/Ticket/" ++ toString (0 : Int))
      = "/apirest.php/Ticket/0" := by decide
  refine ⟨runRequest_requests w _ _, runRequest_requests w _ _,
    runRequest_requests w _ _, ?_, ?_⟩
  · rw [← hneg]
    exact runRequest_requests w _ _
  · rw [← hzero]
    exact runRequest_requests w _ _

end GLPI
